import Mathlib

/-!
Verification development for the safety-alert application
(`safety_app`): a shallow embedding of the alert lifecycle services
(`safety_app/services.py`), the websocket consumers
(`safety_app/consumers.py`) and the trigger view
(`safety_app/views.py`), together with theorems settling the spec's
claims about them.

Modelling conventions:
  * timestamps are integers (seconds); `timezone.now()` / `datetime.now()`
    become an explicit `now : ℤ` argument;
  * nullable columns become `Option` fields; Python numeric truthiness
    (`if latitude`) is `pyTruthy` (false on `None` and on `0`), string
    truthiness is `pyTruthyS` (false on `None` and `""`);
  * coordinates are rationals; the floating-point haversine distance is an
    abstract parameter `dist` of the safe-zone scan, since the claims about
    the scan are independent of the numeric distance computation;
  * `float('inf')` becomes `(⊤ : WithTop ℚ)`;
  * the Django queryset `filter(is_active=True).order_by('priority')` is
    modelled as `List.filter` followed by a stable insertion sort on the
    stored row order (`order_by_priority`), matching SQL `ORDER BY priority`
    over rows kept in insertion order.
-/

/-- Alert status values, from `Alert.STATUS_CHOICES` in
`safety_app/models.py`. -/
inductive AlertStatus
  | TRIGGERED
  | PENDING_CANCEL
  | CANCELLED
  | DISPATCHED
  | RESOLVED
  | TIMEOUT
deriving DecidableEq, Repr

/-- The statuses treated as "active"/non-terminal throughout the code base:
the list `['TRIGGERED', 'PENDING_CANCEL', 'DISPATCHED']` used in
`views.py` and in `AlertService.cancel_alert`. -/
def AlertStatus.isNonTerminal : AlertStatus → Bool
  | .TRIGGERED => true
  | .PENDING_CANCEL => true
  | .DISPATCHED => true
  | _ => false

/-- The `Alert` model (`safety_app/models.py`), restricted to the fields the
services read or write. -/
structure Alert where
  status : AlertStatus
  trigger_method : String
  initial_latitude : Option ℚ
  initial_longitude : Option ℚ
  cancellation_timer_started : Option ℤ
  cancelled_at : Option ℤ
  cancellation_reason : Option String
  dispatched_at : Option ℤ
  contacts_notified : ℕ
  resolved_at : Option ℤ
  resolution_notes : Option String
  safe_word_attempted : Bool
  safe_word_success : Bool
deriving DecidableEq, Repr

/-- The `UserProfile` model fields used by the services. -/
structure UserProfile where
  safe_word : Option String
  is_active_alert : Bool
deriving DecidableEq, Repr

/-- The `EmergencyContact` model fields used by dispatch and monitoring. -/
structure EmergencyContact where
  name : String
  email : String
  priority : ℤ
  is_active : Bool
deriving DecidableEq, Repr

/-- The `SafeZone` model fields used by the geo-spatial services. -/
structure SafeZone where
  name : String
  latitude : ℚ
  longitude : ℚ
  radius_meters : ℤ
  is_active : Bool
deriving DecidableEq, Repr

/-- Python truthiness of an optional number: `None` and `0` are falsy. -/
def pyTruthy : Option ℚ → Bool
  | none => false
  | some q => q ≠ 0

/-- Python truthiness of an optional string: `None` and `""` are falsy. -/
def pyTruthyS : Option String → Bool
  | none => false
  | some s => s ≠ ""

/-- Python's `str.lower()`, modelled character by character (adequate for
the ASCII safe words the application handles).  The result is kept as a
character list, which decides string equality. -/
def pyLower (s : String) : List Char := s.data.map Char.toLower

/-- Lexicographic comparison of character lists, used to model the SQL
ordering of `name` columns. -/
def strLtChars : List Char → List Char → Bool
  | [], [] => false
  | [], _ :: _ => true
  | _ :: _, [] => false
  | a :: as, b :: bs =>
    if a < b then true else if b < a then false else strLtChars as bs

/-- Lexicographic name order for contacts. -/
def nameLt (a b : String) : Bool := strLtChars a.data b.data

/-- `AlertService.create_alert` (`services.py` lines 12-45): creates a
TRIGGERED alert with the cancellation timer started now, storing a
coordinate only when it is truthy (`Decimal(str(latitude)) if latitude
else None`), and sets the profile's active-alert flag.  Returns the
created alert and the updated profile. -/
def AlertService.create_alert (now : ℤ) (profile : UserProfile)
    (latitude longitude : Option ℚ) (trigger_method : String) :
    Alert × UserProfile :=
  let alert : Alert :=
    { status := .TRIGGERED
      trigger_method := trigger_method
      initial_latitude := if pyTruthy latitude then latitude else none
      initial_longitude := if pyTruthy longitude then longitude else none
      cancellation_timer_started := some now
      cancelled_at := none
      cancellation_reason := none
      dispatched_at := none
      contacts_notified := 0
      resolved_at := none
      resolution_notes := none
      safe_word_attempted := false
      safe_word_success := false }
  (alert, { profile with is_active_alert := true })

/-- `AlertService.cancel_alert` (`services.py` lines 47-71): refuses unless
the status is in `['TRIGGERED', 'PENDING_CANCEL', 'DISPATCHED']`; on
success records CANCELLED, the timestamp and the reason, and clears the
profile's active-alert flag. -/
def AlertService.cancel_alert (now : ℤ) (alert : Alert)
    (profile : UserProfile) (reason : String) :
    Bool × Alert × UserProfile :=
  if alert.status.isNonTerminal = false then (false, alert, profile)
  else
    (true,
     { alert with
        status := .CANCELLED
        cancelled_at := some now
        cancellation_reason := some reason },
     { profile with is_active_alert := false })

/-- `AlertService.resolve_alert` (`services.py` lines 73-94): sets RESOLVED,
the resolution timestamp and notes, and clears the active-alert flag —
with no guard on the current status. -/
def AlertService.resolve_alert (now : ℤ) (alert : Alert)
    (profile : UserProfile) (notes : String) :
    Bool × Alert × UserProfile :=
  (true,
   { alert with
      status := .RESOLVED
      resolved_at := some now
      resolution_notes := some notes },
   { profile with is_active_alert := false })

/-- `AlertService.check_timeout` (`services.py` lines 96-110).  The value
`timeout_seconds` models `getattr(settings, 'ALERT_CANCELLATION_TIMEOUT',
120)`, passed explicitly per the spec's stated mapping of the global
settings lookup to a configuration parameter. -/
def AlertService.check_timeout (timeout_seconds : ℤ) (now : ℤ)
    (alert : Alert) : Bool × Alert :=
  match alert.cancellation_timer_started with
  | none => (false, alert)
  | some started =>
    if now - started ≥ timeout_seconds ∧ alert.status = .TRIGGERED then
      (true, { alert with status := .PENDING_CANCEL })
    else
      (false, alert)

/-- `AlertService.verify_safe_word` (`services.py` lines 112-124): sets
`safe_word_attempted`, then compares case-insensitively against the
profile's safe word when that word is truthy (`if profile.safe_word and
profile.safe_word.lower() == safe_word.lower()`); on a match also sets
`safe_word_success`. -/
def AlertService.verify_safe_word (alert : Alert) (profile : UserProfile)
    (safe_word : String) : Bool × Alert :=
  let alert := { alert with safe_word_attempted := true }
  if pyTruthyS profile.safe_word ∧
      pyLower (profile.safe_word.getD "") = pyLower safe_word then
    (true, { alert with safe_word_success := true })
  else
    (false, alert)

/-- Per-user persistent state seen by the alert operations: the user's
alerts (in creation order) and the user's profile. -/
structure UserState where
  alerts : List Alert
  profile : UserProfile
deriving DecidableEq, Repr

/-- `trigger_alert_view` (`views.py` lines 261-301): first queries
`Alert.objects.filter(user=..., status__in=['TRIGGERED', 'PENDING_CANCEL',
'DISPATCHED']).first()`; when such an alert exists it answers the
"You already have an active alert" error without creating anything;
otherwise it creates the alert through `AlertService.create_alert`.
The boolean is the JSON `success` field. -/
def trigger_alert_view (now : ℤ) (st : UserState)
    (latitude longitude : Option ℚ) (trigger_method : String) :
    Bool × UserState :=
  if (st.alerts.filter (fun a => a.status.isNonTerminal)).isEmpty then
    let created := AlertService.create_alert now st.profile
      latitude longitude trigger_method
    (true, { alerts := st.alerts ++ [created.1], profile := created.2 })
  else
    (false, st)

/-- `AlertConsumer.create_alert` (`consumers.py` lines 177-213): creates a
TRIGGERED alert for the connection's user with no check for an existing
active alert and with no cancellation timer (`cancellation_timer_started`
is never set), then marks the profile's active-alert flag. -/
def AlertConsumer.create_alert (st : UserState)
    (lat lon : Option ℚ) (trigger_method : String) : UserState :=
  let alert : Alert :=
    { status := .TRIGGERED
      trigger_method := trigger_method
      initial_latitude := if pyTruthy lat then lat else none
      initial_longitude := if pyTruthy lon then lon else none
      cancellation_timer_started := none
      cancelled_at := none
      cancellation_reason := none
      dispatched_at := none
      contacts_notified := 0
      resolved_at := none
      resolution_notes := none
      safe_word_attempted := false
      safe_word_success := false }
  { alerts := st.alerts ++ [alert]
    profile := { st.profile with is_active_alert := true } }

/-- `AlertConsumer.cancel_alert` (`consumers.py` lines 215-241), given the
alert the lookup `Alert.objects.get(alert_id=..., user=...)` found: it
sets CANCELLED, the timestamp and the reason, and clears the
active-alert flag, with no check of the current status, and returns
`True`. -/
def AlertConsumer.cancel_alert (now : ℤ) (alert : Alert)
    (profile : UserProfile) (reason : String) :
    Bool × Alert × UserProfile :=
  (true,
   { alert with
      status := .CANCELLED
      cancelled_at := some now
      cancellation_reason := some reason },
   { profile with is_active_alert := false })

/-- `AlertConsumer.verify_safe_word` (`consumers.py` lines 243-260), given
the alert the lookup found: the same logic as
`AlertService.verify_safe_word`, duplicated in the consumer. -/
def AlertConsumer.verify_safe_word (alert : Alert) (profile : UserProfile)
    (safe_word : String) : Bool × Alert :=
  let alert := { alert with safe_word_attempted := true }
  if pyTruthyS profile.safe_word ∧
      pyLower (profile.safe_word.getD "") = pyLower safe_word then
    (true, { alert with safe_word_success := true })
  else
    (false, alert)

/-- `MonitorConsumer.verify_monitor_permission` (`consumers.py` lines
340-357): the owner may always monitor; otherwise the check is
`alert.user.emergency_contacts.filter(email=self.user.email).exists()` —
with no `is_active` condition.  Users are modelled by their ids;
`contacts` is the owner's full emergency-contact list. -/
def MonitorConsumer.verify_monitor_permission (owner_id conn_id : ℕ)
    (conn_email : String) (contacts : List EmergencyContact) : Bool :=
  if conn_id = owner_id then true
  else contacts.any (fun c => c.email = conn_email)

/-- A persisted `LocationTrack` row (`safety_app/models.py`), restricted to
the fields the consumer writes. -/
structure LocationTrack where
  latitude : ℚ
  longitude : ℚ
  accuracy : Option ℚ
  altitude : Option ℚ
  speed : Option ℚ
  heading : Option ℚ
  is_in_safe_zone : Bool
  nearest_safe_zone : Option SafeZone
deriving DecidableEq, Repr

/-- Loop body of `AlertConsumer.check_safe_zone` (`consumers.py` lines
262-287): scan the zones in order; on the first zone whose distance is at
most its radius return `(True, zone)`; if none, `(False, None)`.
`d` gives the haversine distance from the queried point to a zone. -/
def AlertConsumer.check_safe_zone_scan (d : SafeZone → ℚ) :
    List SafeZone → Bool × Option SafeZone
  | [] => (false, none)
  | z :: zs =>
    if d z ≤ (z.radius_meters : ℚ) then (true, some z)
    else AlertConsumer.check_safe_zone_scan d zs

/-- `AlertConsumer.check_safe_zone`: filters the user's active zones and
scans them.  `dist lat lon zlat zlon` models
`GeoSpatialService.haversine_distance`-style great-circle distance,
abstracted since the claims do not depend on the numeric formula. -/
def AlertConsumer.check_safe_zone (dist : ℚ → ℚ → ℚ → ℚ → ℚ)
    (zones : List SafeZone) (lat lon : ℚ) : Bool × Option SafeZone :=
  AlertConsumer.check_safe_zone_scan
    (fun z => dist lat lon z.latitude z.longitude)
    (zones.filter (fun z => z.is_active))

/-- `AlertConsumer.save_location_track` (`consumers.py` lines 136-175):
looks the alert up by id among the user's alerts (the `try`/`except`
yields `none` when the lookup fails), computes safe-zone membership, and
persists a `LocationTrack`. -/
def AlertConsumer.save_location_track (dist : ℚ → ℚ → ℚ → ℚ → ℚ)
    (zones : List SafeZone) (alerts : List (String × Alert))
    (alert_id : String) (lat lon : ℚ)
    (accuracy altitude speed heading : Option ℚ) : Option LocationTrack :=
  match alerts.find? (fun p => p.1 = alert_id) with
  | none => none
  | some _ =>
    let zoneCheck := AlertConsumer.check_safe_zone dist zones lat lon
    some
      { latitude := lat
        longitude := lon
        accuracy := accuracy
        altitude := altitude
        speed := speed
        heading := heading
        is_in_safe_zone := zoneCheck.1
        nearest_safe_zone := zoneCheck.2 }

/-- `AlertConsumer.handle_location_update` (`consumers.py` lines 55-90):
`if not all([alert_id, latitude, longitude])` answers the error message
`'Missing required location data'` and persists nothing; otherwise the
location track is saved (an inner failure is swallowed and yields no
reply, modelled by `Except.ok none`). -/
def AlertConsumer.handle_location_update (dist : ℚ → ℚ → ℚ → ℚ → ℚ)
    (zones : List SafeZone) (alerts : List (String × Alert))
    (alert_id : Option String) (latitude longitude : Option ℚ)
    (accuracy altitude speed heading : Option ℚ) :
    Except String (Option LocationTrack) :=
  if pyTruthyS alert_id ∧ pyTruthy latitude ∧ pyTruthy longitude then
    .ok (AlertConsumer.save_location_track dist zones alerts
      (alert_id.getD "") (latitude.getD 0) (longitude.getD 0)
      accuracy altitude speed heading)
  else
    .error "Missing required location data"

/-- Dispatch channels used by `DispatchService` (`SMS` and `EMAIL`; the
model also lists `PUSH` but the service never uses it). -/
inductive Channel
  | SMS
  | EMAIL
  | PUSH
deriving DecidableEq, Repr

/-- A `DispatchLog` row (`safety_app/models.py`), restricted to the fields
`_send_sms` / `_send_email` write; both create the row with status
`'SIMULATED'` and `sent_at` now. -/
structure DispatchLog where
  contact : EmergencyContact
  channel : Channel
  status : String
  sent_at : ℤ
deriving DecidableEq, Repr

/-- The dictionary `DispatchService.dispatch_alert` returns. -/
structure DispatchResult where
  success : Bool
  message : Option String
  contacts_notified : ℕ
  dispatch_logs : List DispatchLog
deriving DecidableEq, Repr

/-- Insert a contact into a priority-sorted list, after every element of
strictly smaller priority and before the rest; used to model the SQL
`ORDER BY priority` as a stable sort of the stored rows. -/
def insertByPriority (c : EmergencyContact) :
    List EmergencyContact → List EmergencyContact
  | [] => [c]
  | d :: ds =>
    if d.priority < c.priority then d :: insertByPriority c ds
    else c :: d :: ds

/-- Stable sort of the contact rows by ascending priority, modelling
`order_by('priority')`: contacts of equal priority keep their stored
order. -/
def order_by_priority : List EmergencyContact → List EmergencyContact
  | [] => []
  | c :: cs => insertByPriority c (order_by_priority cs)

/-- Insert for the lexicographic (priority, name) order. -/
def insertByPriorityName (c : EmergencyContact) :
    List EmergencyContact → List EmergencyContact
  | [] => [c]
  | d :: ds =>
    if d.priority < c.priority ∨
        (d.priority = c.priority ∧ nameLt d.name c.name = true)
    then d :: insertByPriorityName c ds
    else c :: d :: ds

/-- Written from the spec's words, for comparison with the code's ordering:
"active contacts sorted ascending by priority, ties broken by name". -/
def order_by_priority_then_name :
    List EmergencyContact → List EmergencyContact
  | [] => []
  | c :: cs => insertByPriorityName c (order_by_priority_then_name cs)

/-- `DispatchService.dispatch_alert` (`services.py` lines 130-184): fetches
`alert.user.emergency_contacts.filter(is_active=True).order_by('priority')`;
when empty, answers the failure dictionary and leaves the alert alone;
otherwise creates one SMS and one EMAIL `DispatchLog` per contact in
order, then sets the alert DISPATCHED with `dispatched_at` now and
`contacts_notified` the number of contacts processed. -/
def DispatchService.dispatch_alert (now : ℤ) (alert : Alert)
    (contacts : List EmergencyContact) : DispatchResult × Alert :=
  let active := order_by_priority (contacts.filter (fun c => c.is_active))
  if active.isEmpty then
    ({ success := false
       message := some "No active emergency contacts found"
       contacts_notified := 0
       dispatch_logs := [] },
     alert)
  else
    let logs := active.flatMap (fun c =>
      [{ contact := c, channel := .SMS, status := "SIMULATED",
          sent_at := now },
       { contact := c, channel := .EMAIL, status := "SIMULATED",
          sent_at := now }])
    ({ success := true
       message := none
       contacts_notified := active.length
       dispatch_logs := logs },
     { alert with
        status := .DISPATCHED
        dispatched_at := some now
        contacts_notified := active.length })

/-- Loop of `GeoSpatialService.is_in_safe_zone` (`services.py` lines
322-346): walk the zones keeping the nearest zone and minimum distance
(`min_distance` starts at `float('inf')`, modelled by `⊤`); return
`(True, zone, distance)` on the first zone whose distance is at most its
radius, else `(False, nearest, min_distance)` at the end. -/
def is_in_safe_zone_scan (d : SafeZone → ℚ) :
    List SafeZone → Option SafeZone → WithTop ℚ →
    Bool × Option SafeZone × WithTop ℚ
  | [], nearest, minDist => (false, nearest, minDist)
  | z :: zs, nearest, minDist =>
    let dz := d z
    let upd := if (dz : WithTop ℚ) < minDist then (some z, (dz : WithTop ℚ))
      else (nearest, minDist)
    if dz ≤ (z.radius_meters : ℚ) then (true, some z, (dz : WithTop ℚ))
    else is_in_safe_zone_scan d zs upd.1 upd.2

/-- `GeoSpatialService.is_in_safe_zone`: filters the user's active zones
and scans them with the loop above.  `dist` abstracts
`GeoSpatialService.haversine_distance` (a pure float computation the
claims do not depend on numerically). -/
def GeoSpatialService.is_in_safe_zone (dist : ℚ → ℚ → ℚ → ℚ → ℚ)
    (zones : List SafeZone) (latitude longitude : ℚ) :
    Bool × Option SafeZone × WithTop ℚ :=
  is_in_safe_zone_scan
    (fun z => dist latitude longitude z.latitude z.longitude)
    (zones.filter (fun z => z.is_active)) none ⊤

/-- A baseline TRIGGERED alert for concrete instantiations. -/
def alertT : Alert :=
  { status := .TRIGGERED
    trigger_method := "panic_button"
    initial_latitude := none
    initial_longitude := none
    cancellation_timer_started := some 0
    cancelled_at := none
    cancellation_reason := none
    dispatched_at := none
    contacts_notified := 0
    resolved_at := none
    resolution_notes := none
    safe_word_attempted := false
    safe_word_success := false }

/-- A RESOLVED (terminal) alert. -/
def alertResolved : Alert :=
  { alertT with status := .RESOLVED, resolved_at := some 10 }

/-- A CANCELLED (terminal) alert. -/
def alertCancelled : Alert :=
  { alertT with status := .CANCELLED, cancelled_at := some 10 }

/-- A profile with the safe word "Blue42". -/
def profileB : UserProfile :=
  { safe_word := some "Blue42", is_active_alert := true }

def zedC : EmergencyContact :=
  { name := "Zed", email := "zed@example.com", priority := 1,
    is_active := true }

def amyC : EmergencyContact :=
  { name := "Amy", email := "amy@example.com", priority := 1,
    is_active := true }

def inaC : EmergencyContact :=
  { name := "Ina", email := "ina@example.com", priority := 1,
    is_active := false }

def bobC : EmergencyContact :=
  { name := "Bob", email := "bob@example.com", priority := 2,
    is_active := true }

def calC : EmergencyContact :=
  { name := "Cal", email := "cal@example.com", priority := 1,
    is_active := true }

def danC : EmergencyContact :=
  { name := "Dan", email := "dan@example.com", priority := 3,
    is_active := true }

def stActive : UserState := { alerts := [alertT], profile := profileB }

def stEmpty : UserState := { alerts := [], profile := profileB }

def zoneFar : SafeZone :=
  { name := "Far", latitude := 600, longitude := 0, radius_meters := 500,
    is_active := true }

def zoneNear : SafeZone :=
  { name := "Near", latitude := 100, longitude := 0, radius_meters := 500,
    is_active := true }

/-- C2 (amended): cancellation through `AlertService.cancel_alert`
succeeds exactly on the non-terminal statuses, recording status, reason,
timestamp and clearing the active-alert flag, and fails leaving everything
unchanged otherwise; the websocket `alert_cancel` handler instead cancels
unconditionally, reporting success and mutating the alert whatever its
status. -/
theorem cancel_alert_spec (now : ℤ) (alert : Alert) (profile : UserProfile)
    (reason : String) :
    (((AlertService.cancel_alert now alert profile reason).1 = true) ↔
      alert.status.isNonTerminal = true) ∧
    (alert.status.isNonTerminal = true →
      AlertService.cancel_alert now alert profile reason =
        (true,
         { alert with
            status := .CANCELLED
            cancelled_at := some now
            cancellation_reason := some reason },
         { profile with is_active_alert := false })) ∧
    (alert.status.isNonTerminal = false →
      AlertService.cancel_alert now alert profile reason =
        (false, alert, profile)) ∧
    AlertConsumer.cancel_alert now alert profile reason =
      (true,
       { alert with
          status := .CANCELLED
          cancelled_at := some now
          cancellation_reason := some reason },
       { profile with is_active_alert := false }) := by
  unfold AlertService.cancel_alert AlertConsumer.cancel_alert
  rcases h : alert.status.isNonTerminal <;> simp [h]

/-- C2 witness: cancelling a TRIGGERED alert succeeds and cancelling a
RESOLVED alert through the service fails. -/
theorem cancel_alert_spec_witness :
    (AlertService.cancel_alert 3 alertT profileB "done").1 = true ∧
    AlertService.cancel_alert 3 alertResolved profileB "done" =
      (false, alertResolved, profileB) :=
  ⟨((cancel_alert_spec 3 alertT profileB "done").1).mpr (by decide),
   (cancel_alert_spec 3 alertResolved profileB "done").2.2.1 (by decide)⟩

/-- C2 counterexample: the websocket cancel handler reports success on an
already RESOLVED alert, so "cancel returns true iff the status is
non-terminal" fails on that path. -/
theorem cancel_alert_consumer_counterexample :
    ¬ (((AlertConsumer.cancel_alert 20 alertResolved profileB "oops").1
          = true) ↔
        alertResolved.status.isNonTerminal = true) := by decide

/-- C3 (amended): `AlertService.resolve_alert` unconditionally reports
success, sets RESOLVED with the resolution timestamp and notes and clears
the active-alert flag, whatever the current status — terminal statuses
included; no guard or `InvalidTransitionError` exists. -/
theorem resolve_alert_spec (now : ℤ) (alert : Alert) (profile : UserProfile)
    (notes : String) :
    (AlertService.resolve_alert now alert profile notes).1 = true ∧
    (AlertService.resolve_alert now alert profile notes).2.1 =
      { alert with
          status := .RESOLVED
          resolved_at := some now
          resolution_notes := some notes } ∧
    (AlertService.resolve_alert now alert profile notes).2.1.cancelled_at =
      alert.cancelled_at ∧
    (AlertService.resolve_alert now alert profile notes).2.1.dispatched_at =
      alert.dispatched_at ∧
    (AlertService.resolve_alert now alert profile notes).2.2 =
      { profile with is_active_alert := false } :=
  ⟨rfl, rfl, rfl, rfl, rfl⟩

/-- C3 counterexample: resolving an already CANCELLED alert is not a no-op
— it mutates the terminal alert to RESOLVED and stamps the resolution
fields. -/
theorem resolve_alert_terminal_counterexample :
    alertCancelled.status = .CANCELLED ∧
    (AlertService.resolve_alert 20 alertCancelled profileB "n").2.1.status =
      .RESOLVED ∧
    (AlertService.resolve_alert 20 alertCancelled profileB "n").2.1 ≠
      alertCancelled := by decide

/-- C6: dispatch with zero active emergency contacts answers the
unsuccessful "No active emergency contacts found" result with no dispatch
logs and leaves the alert untouched. -/
theorem dispatch_alert_no_active_contacts (now : ℤ) (alert : Alert)
    (contacts : List EmergencyContact)
    (h : contacts.filter (fun c => c.is_active) = []) :
    DispatchService.dispatch_alert now alert contacts =
      ({ success := false
         message := some "No active emergency contacts found"
         contacts_notified := 0
         dispatch_logs := [] },
       alert) := by
  unfold DispatchService.dispatch_alert
  rw [h]
  rfl

/-- C6 witness: a user whose only contact is inactive gets the failure
result and an unchanged alert. -/
theorem dispatch_alert_no_active_contacts_witness :
    DispatchService.dispatch_alert 5 alertT [inaC] =
      ({ success := false
         message := some "No active emergency contacts found"
         contacts_notified := 0
         dispatch_logs := [] },
       alertT) :=
  dispatch_alert_no_active_contacts 5 alertT [inaC] (by decide)

/-- C7: `check_timeout` returns true — moving the alert to PENDING_CANCEL
— exactly when the cancellation timer was started, the status is TRIGGERED
and at least `timeout_seconds` have elapsed; in every other case it
returns false and leaves the alert unchanged. -/
theorem check_timeout_spec (timeout_seconds now : ℤ) (alert : Alert) :
    (((AlertService.check_timeout timeout_seconds now alert).1 = true) ↔
      (∃ started, alert.cancellation_timer_started = some started ∧
        alert.status = .TRIGGERED ∧ now - started ≥ timeout_seconds)) ∧
    ((AlertService.check_timeout timeout_seconds now alert).1 = true →
      AlertService.check_timeout timeout_seconds now alert =
        (true, { alert with status := .PENDING_CANCEL })) ∧
    ((AlertService.check_timeout timeout_seconds now alert).1 = false →
      AlertService.check_timeout timeout_seconds now alert =
        (false, alert)) := by
  unfold AlertService.check_timeout
  rcases h : alert.cancellation_timer_started with _ | started
  · simp [h]
  · by_cases hc : now - started ≥ timeout_seconds ∧ alert.status = .TRIGGERED
    · simp [h, hc]
    · simp [h, hc]
      intro h1
      by_contra hlt
      exact hc ⟨not_lt.mp hlt, h1⟩

/-- C7 witness: with the timer started at 0 and a 120 second timeout, a
TRIGGERED alert checked at time 120 transitions to PENDING_CANCEL. -/
theorem check_timeout_spec_witness :
    AlertService.check_timeout 120 120 alertT =
      (true, { alertT with status := .PENDING_CANCEL }) :=
  (check_timeout_spec 120 120 alertT).2.1 (by decide)

/-- C8: safe-word verification succeeds exactly when the owner has a
configured (non-empty) safe word equal to the attempt case-insensitively;
every call marks `safe_word_attempted`; `safe_word_success` is set only on
a match and never cleared; the alert status is untouched; and the
websocket handler computes the same function. -/
theorem verify_safe_word_spec (alert : Alert) (profile : UserProfile)
    (attempt : String) :
    (((AlertService.verify_safe_word alert profile attempt).1 = true) ↔
      (∃ w, profile.safe_word = some w ∧ w ≠ "" ∧
        pyLower w = pyLower attempt)) ∧
    (AlertService.verify_safe_word alert profile
        attempt).2.safe_word_attempted = true ∧
    (AlertService.verify_safe_word alert profile
        attempt).2.safe_word_success =
      (alert.safe_word_success ||
        (AlertService.verify_safe_word alert profile attempt).1) ∧
    (AlertService.verify_safe_word alert profile attempt).2.status =
      alert.status ∧
    AlertConsumer.verify_safe_word alert profile attempt =
      AlertService.verify_safe_word alert profile attempt := by
  unfold AlertService.verify_safe_word AlertConsumer.verify_safe_word
  rcases hw : profile.safe_word with _ | w
  · simp [pyTruthyS, hw]
  · by_cases he : w = ""
    · simp [pyTruthyS, hw, he]
    · by_cases hm : pyLower w = pyLower attempt
      · simp [pyTruthyS, hw, he, hm]
      · simp [pyTruthyS, hw, he, hm]

/-- C8 witness: the configured word "Blue42" verifies against the attempt
"blue42" and the attempt is marked. -/
theorem verify_safe_word_spec_witness :
    (AlertService.verify_safe_word alertT profileB "blue42").1 = true ∧
    (AlertService.verify_safe_word alertT profileB
        "blue42").2.safe_word_attempted = true :=
  ⟨((verify_safe_word_spec alertT profileB "blue42").1).mpr
      ⟨"Blue42", rfl, by decide, by decide⟩,
   (verify_safe_word_spec alertT profileB "blue42").2.1⟩

/-- C4 (amended): monitor authorization succeeds exactly when the
connecting user is the owner or any of the owner's emergency contacts —
active or not — carries the connecting user's email; the `is_active` flag
is not consulted. -/
theorem verify_monitor_permission_spec (owner_id conn_id : ℕ)
    (conn_email : String) (contacts : List EmergencyContact) :
    (MonitorConsumer.verify_monitor_permission owner_id conn_id conn_email
        contacts = true) ↔
      (conn_id = owner_id ∨ ∃ c ∈ contacts, c.email = conn_email) := by
  unfold MonitorConsumer.verify_monitor_permission
  by_cases h : conn_id = owner_id
  · simp [h]
  · simp [h, List.any_eq_true]

/-- C4 witness: a distinct user listed (actively) with a matching email is
authorized. -/
theorem verify_monitor_permission_spec_witness :
    MonitorConsumer.verify_monitor_permission 1 7 "amy@example.com"
      [amyC] = true :=
  (verify_monitor_permission_spec 1 7 "amy@example.com" [amyC]).mpr
    (Or.inr ⟨amyC, by decide, rfl⟩)

/-- C4 counterexample: a connecting user whose only matching contact entry
is inactive is accepted by the code, though the claim requires rejection
of such a user. -/
theorem verify_monitor_permission_counterexample :
    ¬ ((MonitorConsumer.verify_monitor_permission 1 2 "ina@example.com"
          [inaC] = true) ↔
        (2 = 1 ∨ ∃ c ∈ [inaC], c.is_active = true ∧
          c.email = "ina@example.com")) := by decide

/-- C1 (amended): the HTTP trigger endpoint refuses — creating nothing —
while the user has a non-terminal alert, and otherwise creates the state's
single non-terminal alert; the websocket `alert_trigger` handler performs
no conflict check and always adds one more non-terminal alert. -/
theorem trigger_alert_view_spec (now : ℤ) (st : UserState)
    (lat lon : Option ℚ) (m : String) :
    ((st.alerts.filter (fun a => a.status.isNonTerminal)) ≠ [] →
      trigger_alert_view now st lat lon m = (false, st)) ∧
    ((st.alerts.filter (fun a => a.status.isNonTerminal)) = [] →
      (trigger_alert_view now st lat lon m).1 = true ∧
      ((trigger_alert_view now st lat lon m).2.alerts.filter
        (fun a => a.status.isNonTerminal)).length = 1) ∧
    ((AlertConsumer.create_alert st lat lon m).alerts.filter
        (fun a => a.status.isNonTerminal)).length =
      (st.alerts.filter (fun a => a.status.isNonTerminal)).length + 1 := by
  refine ⟨?_, ?_, ?_⟩
  · intro h
    unfold trigger_alert_view
    simp [List.isEmpty_iff, h]
  · intro h
    unfold trigger_alert_view AlertService.create_alert
    simp only [h, List.isEmpty_nil, if_true]
    simp [List.filter_append, h, AlertStatus.isNonTerminal]
    exact fun a ha => by
      have := List.filter_eq_nil_iff.mp h a ha
      simpa [AlertStatus.isNonTerminal] using this
  · unfold AlertConsumer.create_alert
    simp [List.filter_append, AlertStatus.isNonTerminal]

/-- C1 witness: the endpoint refuses on a state holding a TRIGGERED alert
and succeeds on a state with none. -/
theorem trigger_alert_view_spec_witness :
    trigger_alert_view 0 stActive none none "panic_button" =
      (false, stActive) ∧
    (trigger_alert_view 0 stEmpty none none "panic_button").1 = true :=
  ⟨(trigger_alert_view_spec 0 stActive none none "panic_button").1
      (by decide),
   ((trigger_alert_view_spec 0 stEmpty none none "panic_button").2.1
      (by decide)).1⟩

/-- C1 counterexample: from a state with one TRIGGERED alert, the
websocket `alert_trigger` path creates a second alert with no conflict
error, leaving two simultaneous non-terminal alerts for the user. -/
theorem trigger_conflict_counterexample :
    ((stActive.alerts.filter (fun a => a.status.isNonTerminal)).length
        = 1) ∧
    (((AlertConsumer.create_alert stActive none none
        "panic_button").alerts.filter
          (fun a => a.status.isNonTerminal)).length = 2) := by decide

/-- Inserting a contact produces a permutation of consing it. -/
theorem insertByPriority_perm (c : EmergencyContact)
    (l : List EmergencyContact) :
    List.Perm (insertByPriority c l) (c :: l) := by
  induction l with
  | nil => simp [insertByPriority]
  | cons d ds ih =>
    unfold insertByPriority
    by_cases hd : d.priority < c.priority
    · simp only [hd, if_true]
      exact (ih.cons d).trans (List.Perm.swap c d ds)
    · simp [hd]

/-- The stable priority sort permutes its input. -/
theorem order_by_priority_perm (l : List EmergencyContact) :
    List.Perm (order_by_priority l) l := by
  induction l with
  | nil => rfl
  | cons c cs ih =>
    exact (insertByPriority_perm c (order_by_priority cs)).trans (ih.cons c)

/-- Inserting into a priority-sorted list keeps it sorted. -/
theorem insertByPriority_sorted (c : EmergencyContact)
    (l : List EmergencyContact)
    (h : l.Pairwise (fun a b => a.priority ≤ b.priority)) :
    (insertByPriority c l).Pairwise
      (fun a b => a.priority ≤ b.priority) := by
  induction l with
  | nil => simp [insertByPriority]
  | cons d ds ih =>
    rcases List.pairwise_cons.mp h with ⟨hall, hds⟩
    unfold insertByPriority
    by_cases hd : d.priority < c.priority
    · simp only [hd, if_true]
      refine List.pairwise_cons.mpr ⟨?_, ih hds⟩
      intro x hx
      rcases List.mem_cons.mp
          ((insertByPriority_perm c ds).mem_iff.mp hx) with rfl | hxds
      · exact le_of_lt hd
      · exact hall x hxds
    · simp only [hd, if_false]
      refine List.pairwise_cons.mpr ⟨?_, h⟩
      intro x hx
      rcases List.mem_cons.mp hx with rfl | hxds
      · exact not_lt.mp hd
      · exact le_trans (not_lt.mp hd) (hall x hxds)

/-- Inserting a contact inserts it in front of the equal-priority block:
filtering any fixed priority commutes with the insertion. -/
theorem insertByPriority_filter (c : EmergencyContact)
    (l : List EmergencyContact) (p : ℤ) :
    (insertByPriority c l).filter (fun x => x.priority == p) =
      if c.priority = p then
        c :: l.filter (fun x => x.priority == p)
      else l.filter (fun x => x.priority == p) := by
  induction l with
  | nil => by_cases hc : c.priority = p <;> simp [insertByPriority, hc]
  | cons d ds ih =>
    unfold insertByPriority
    by_cases hd : d.priority < c.priority
    · simp only [hd, if_true, List.filter_cons]
      by_cases hdp : d.priority = p
      · by_cases hc : c.priority = p
        · rw [hdp, hc] at hd
          exact absurd hd (lt_irrefl p)
        · simp [hdp, hc, ih]
      · simp [hdp, ih]
    · simp only [hd, if_false]
      by_cases hc : c.priority = p <;> simp [hc, List.filter_cons]

/-- The stable priority sort keeps each equal-priority block in stored
order. -/
theorem order_by_priority_stable (l : List EmergencyContact) (p : ℤ) :
    (order_by_priority l).filter (fun x => x.priority == p) =
      l.filter (fun x => x.priority == p) := by
  induction l with
  | nil => rfl
  | cons c cs ih =>
    show (insertByPriority c (order_by_priority cs)).filter _ = _
    rw [insertByPriority_filter]
    by_cases hc : c.priority = p <;> simp [hc, List.filter_cons, ih]

/-- The stable priority sort sorts by ascending priority. -/
theorem order_by_priority_sorted (l : List EmergencyContact) :
    (order_by_priority l).Pairwise
      (fun a b => a.priority ≤ b.priority) := by
  induction l with
  | nil => simp [order_by_priority]
  | cons c cs ih => exact insertByPriority_sorted c _ ih

/-- C5 (amended): with at least one active contact, dispatch processes the
active contacts sorted ascending by priority with ties kept in stored
order (a stable sort — ties are not broken by name), emits one SMS and one
EMAIL record per contact in that order, reports success, and stamps the
alert DISPATCHED with `dispatched_at` set and `contacts_notified` equal to
the number of active contacts. -/
theorem dispatch_alert_active_contacts (now : ℤ) (alert : Alert)
    (contacts : List EmergencyContact)
    (h : contacts.filter (fun c => c.is_active) ≠ []) :
    (order_by_priority (contacts.filter (fun c => c.is_active))).Pairwise
      (fun a b => a.priority ≤ b.priority) ∧
    List.Perm (order_by_priority (contacts.filter (fun c => c.is_active)))
      (contacts.filter (fun c => c.is_active)) ∧
    (∀ p : ℤ,
      (order_by_priority (contacts.filter (fun c => c.is_active))).filter
          (fun x => x.priority == p) =
        (contacts.filter (fun c => c.is_active)).filter
          (fun x => x.priority == p)) ∧
    (DispatchService.dispatch_alert now alert contacts).1.success = true ∧
    (DispatchService.dispatch_alert now alert contacts).1.dispatch_logs =
      (order_by_priority
          (contacts.filter (fun c => c.is_active))).flatMap
        (fun c =>
          [{ contact := c, channel := .SMS, status := "SIMULATED",
              sent_at := now },
           { contact := c, channel := .EMAIL, status := "SIMULATED",
              sent_at := now }]) ∧
    (DispatchService.dispatch_alert now alert
        contacts).1.contacts_notified =
      (contacts.filter (fun c => c.is_active)).length ∧
    (DispatchService.dispatch_alert now alert contacts).2 =
      { alert with
          status := .DISPATCHED
          dispatched_at := some now
          contacts_notified :=
            (contacts.filter (fun c => c.is_active)).length } := by
  have hlen :=
    (order_by_priority_perm
      (contacts.filter (fun c => c.is_active))).length_eq
  have hne : (order_by_priority
      (contacts.filter (fun c => c.is_active))).isEmpty = false := by
    cases he : order_by_priority
        (contacts.filter (fun c => c.is_active)) with
    | nil =>
      rw [he] at hlen
      exact absurd (List.length_eq_zero.mp hlen.symm) h
    | cons x xs => rfl
  refine ⟨order_by_priority_sorted _, order_by_priority_perm _,
    fun p => order_by_priority_stable _ p, ?_, ?_, ?_, ?_⟩ <;>
  · unfold DispatchService.dispatch_alert
    simp [hne, hlen]

/-- C5 witness: three active contacts with priorities 2, 1, 3 dispatch
successfully with three contacts notified and the alert DISPATCHED. -/
theorem dispatch_alert_active_contacts_witness :
    (DispatchService.dispatch_alert 7 alertT
        [bobC, calC, danC]).1.success = true ∧
    (DispatchService.dispatch_alert 7 alertT
        [bobC, calC, danC]).1.contacts_notified = 3 ∧
    (DispatchService.dispatch_alert 7 alertT
        [bobC, calC, danC]).2.status = .DISPATCHED := by
  have h := dispatch_alert_active_contacts 7 alertT [bobC, calC, danC]
    (by decide)
  refine ⟨h.2.2.2.1, ?_, ?_⟩
  · rw [h.2.2.2.2.2.1]
    decide
  · rw [h.2.2.2.2.2.2]

/-- C5 counterexample: two active contacts sharing priority 1, stored in
the order ["Zed", "Amy"], are dispatched Zed-first — the stored order —
not in the name order the claim requires for ties. -/
theorem dispatch_alert_tie_counterexample :
    ¬ ((DispatchService.dispatch_alert 0 alertT
          [zedC, amyC]).1.dispatch_logs.map (fun l => l.contact) =
        (order_by_priority_then_name
            ([zedC, amyC].filter (fun c => c.is_active))).flatMap
          (fun c => [c, c])) := by decide

/-- The scan reports the first containing zone with its distance, whatever
the accumulator holds. -/
theorem scan_first_inside (d : SafeZone → ℚ) (l₁ : List SafeZone)
    (z : SafeZone) (l₂ : List SafeZone)
    (hz : d z ≤ (z.radius_meters : ℚ)) :
    ∀ (nearest : Option SafeZone) (minDist : WithTop ℚ),
      (∀ z' ∈ l₁, ¬ (d z' ≤ (z'.radius_meters : ℚ))) →
      is_in_safe_zone_scan d (l₁ ++ z :: l₂) nearest minDist =
        (true, some z, ((d z : ℚ) : WithTop ℚ)) := by
  induction l₁ with
  | nil =>
    intro nearest minDist _
    rw [List.nil_append]
    unfold is_in_safe_zone_scan
    simp [hz]
  | cons w ws ih =>
    intro nearest minDist h₁
    have hw := h₁ w (List.mem_cons_self w ws)
    rw [List.cons_append]
    unfold is_in_safe_zone_scan
    simp only [if_neg hw]
    exact ih _ _ (fun x hx => h₁ x (List.mem_cons_of_mem w hx))

/-- When no zone contains the point, the scan reports `false`. -/
theorem scan_no_inside_false (d : SafeZone → ℚ) (l : List SafeZone) :
    ∀ (nearest : Option SafeZone) (minDist : WithTop ℚ),
      (∀ z ∈ l, ¬ (d z ≤ (z.radius_meters : ℚ))) →
      (is_in_safe_zone_scan d l nearest minDist).1 = false := by
  induction l with
  | nil =>
    intro nearest minDist _
    rfl
  | cons w ws ih =>
    intro nearest minDist h
    unfold is_in_safe_zone_scan
    simp only [if_neg (h w (List.mem_cons_self w ws))]
    exact ih _ _ (fun x hx => h x (List.mem_cons_of_mem w hx))

/-- When no zone contains the point, the reported distance is a lower
bound: at most the incoming accumulator and at most every zone's
distance. -/
theorem scan_no_inside_min (d : SafeZone → ℚ) (l : List SafeZone) :
    ∀ (nearest : Option SafeZone) (minDist : WithTop ℚ),
      (∀ z ∈ l, ¬ (d z ≤ (z.radius_meters : ℚ))) →
      (is_in_safe_zone_scan d l nearest minDist).2.2 ≤ minDist ∧
      ∀ z ∈ l, (is_in_safe_zone_scan d l nearest minDist).2.2 ≤
        ((d z : ℚ) : WithTop ℚ) := by
  induction l with
  | nil =>
    intro nearest minDist _
    exact ⟨le_refl _, by simp⟩
  | cons w ws ih =>
    intro nearest minDist h
    have hw := h w (List.mem_cons_self w ws)
    have htail := fun x hx => h x (List.mem_cons_of_mem w hx)
    unfold is_in_safe_zone_scan
    simp only [if_neg hw]
    by_cases hlt : ((d w : ℚ) : WithTop ℚ) < minDist
    · simp only [if_pos hlt]
      obtain ⟨h1, h2⟩ := ih (some w) ((d w : ℚ) : WithTop ℚ) htail
      refine ⟨le_trans h1 (le_of_lt hlt), ?_⟩
      intro x hx
      rcases List.mem_cons.mp hx with rfl | hxs
      · exact h1
      · exact h2 x hxs
    · simp only [if_neg hlt]
      obtain ⟨h1, h2⟩ := ih nearest minDist htail
      refine ⟨h1, ?_⟩
      intro x hx
      rcases List.mem_cons.mp hx with rfl | hxs
      · exact le_trans h1 (not_lt.mp hlt)
      · exact h2 x hxs

/-- When no zone contains the point, the reported nearest zone achieves
the reported distance (or nothing was ever seen and the accumulator
passes through). -/
theorem scan_no_inside_nearest (d : SafeZone → ℚ) (l : List SafeZone)
    (C : SafeZone → Prop) :
    ∀ (nearest : Option SafeZone) (minDist : WithTop ℚ),
      (∀ z ∈ l, ¬ (d z ≤ (z.radius_meters : ℚ))) →
      (∀ z ∈ l, C z) →
      ((∃ z, nearest = some z ∧ minDist = ((d z : ℚ) : WithTop ℚ) ∧ C z) ∨
        (nearest = none ∧ minDist = ⊤)) →
      ((∃ z, (is_in_safe_zone_scan d l nearest minDist).2.1 = some z ∧
          (is_in_safe_zone_scan d l nearest minDist).2.2 =
            ((d z : ℚ) : WithTop ℚ) ∧ C z) ∨
        ((is_in_safe_zone_scan d l nearest minDist).2.1 = none ∧
          (is_in_safe_zone_scan d l nearest minDist).2.2 = ⊤)) := by
  induction l with
  | nil =>
    intro nearest minDist _ _ hacc
    exact hacc
  | cons w ws ih =>
    intro nearest minDist h hC hacc
    have hw := h w (List.mem_cons_self w ws)
    unfold is_in_safe_zone_scan
    simp only [if_neg hw]
    by_cases hlt : ((d w : ℚ) : WithTop ℚ) < minDist
    · simp only [if_pos hlt]
      exact ih _ _ (fun x hx => h x (List.mem_cons_of_mem w hx))
        (fun x hx => hC x (List.mem_cons_of_mem w hx))
        (Or.inl ⟨w, rfl, rfl, hC w (List.mem_cons_self w ws)⟩)
    · simp only [if_neg hlt]
      exact ih _ _ (fun x hx => h x (List.mem_cons_of_mem w hx))
        (fun x hx => hC x (List.mem_cons_of_mem w hx)) hacc

/-- C9: the safe-zone evaluation scans the active zones in input order
tracking the minimum distance: an empty active list yields
`(false, none, ⊤)` (no zone, infinite distance); the first active zone
whose distance is at most its radius is returned with `isInside = true`
and its distance; and when no active zone contains the point the result is
`false` together with a nearest zone, a member achieving the minimum
distance over all active zones. -/
theorem is_in_safe_zone_spec (dist : ℚ → ℚ → ℚ → ℚ → ℚ)
    (zones : List SafeZone) (latitude longitude : ℚ) :
    ((zones.filter (fun z => z.is_active)) = [] →
      GeoSpatialService.is_in_safe_zone dist zones latitude longitude =
        (false, none, ⊤)) ∧
    (∀ l₁ z l₂, zones.filter (fun z => z.is_active) = l₁ ++ z :: l₂ →
      (∀ z' ∈ l₁,
        ¬ (dist latitude longitude z'.latitude z'.longitude ≤
            (z'.radius_meters : ℚ))) →
      dist latitude longitude z.latitude z.longitude ≤
        (z.radius_meters : ℚ) →
      GeoSpatialService.is_in_safe_zone dist zones latitude longitude =
        (true, some z,
          ((dist latitude longitude z.latitude z.longitude : ℚ) :
            WithTop ℚ))) ∧
    ((∀ z ∈ zones.filter (fun z => z.is_active),
        ¬ (dist latitude longitude z.latitude z.longitude ≤
            (z.radius_meters : ℚ))) →
      (GeoSpatialService.is_in_safe_zone dist zones latitude
          longitude).1 = false ∧
      (∀ z ∈ zones.filter (fun z => z.is_active),
        (GeoSpatialService.is_in_safe_zone dist zones latitude
            longitude).2.2 ≤
          ((dist latitude longitude z.latitude z.longitude : ℚ) :
            WithTop ℚ)) ∧
      (zones.filter (fun z => z.is_active) ≠ [] →
        ∃ z ∈ zones.filter (fun z => z.is_active),
          (GeoSpatialService.is_in_safe_zone dist zones latitude
              longitude).2.1 = some z ∧
          (GeoSpatialService.is_in_safe_zone dist zones latitude
              longitude).2.2 =
            ((dist latitude longitude z.latitude z.longitude : ℚ) :
              WithTop ℚ))) := by
  refine ⟨?_, ?_, ?_⟩
  · intro h
    unfold GeoSpatialService.is_in_safe_zone
    rw [h]
    rfl
  · intro l₁ z l₂ heq h₁ hz
    unfold GeoSpatialService.is_in_safe_zone
    rw [heq]
    exact scan_first_inside _ l₁ z l₂ hz none ⊤ h₁
  · intro h
    unfold GeoSpatialService.is_in_safe_zone
    refine ⟨scan_no_inside_false _ _ none ⊤ h,
      (scan_no_inside_min _ _ none ⊤ h).2, ?_⟩
    intro hne
    have hach := scan_no_inside_nearest
      (fun z => dist latitude longitude z.latitude z.longitude)
      (zones.filter (fun z => z.is_active))
      (fun z => z ∈ zones.filter (fun z => z.is_active)) none ⊤ h
      (fun z hz => hz) (Or.inr ⟨rfl, rfl⟩)
    rcases hach with ⟨z, hz1, hz2, hz3⟩ | ⟨_, htop⟩
    · exact ⟨z, hz3, hz1, hz2⟩
    · rcases List.exists_mem_of_ne_nil _ hne with ⟨z0, hz0⟩
      have hle := (scan_no_inside_min
        (fun z => dist latitude longitude z.latitude z.longitude)
        (zones.filter (fun z => z.is_active)) none ⊤ h).2 z0 hz0
      rw [htop] at hle
      exact absurd hle (WithTop.not_top_le_coe _)

/-- C9 witness: with a distance function reading each zone's latitude (600
for the first zone, 100 for the second, radius 500 each), the scan skips
the first zone and returns the second, contained, zone with its
distance. -/
theorem is_in_safe_zone_spec_witness :
    GeoSpatialService.is_in_safe_zone (fun _ _ zla _ => zla)
        [zoneFar, zoneNear] 0 0 =
      (true, some zoneNear, ((100 : ℚ) : WithTop ℚ)) := by
  have h := (is_in_safe_zone_spec (fun _ _ zla _ => zla)
    [zoneFar, zoneNear] 0 0).2.1 [zoneFar] zoneNear [] (by decide)
    (by decide) (by decide)
  exact h.trans (by decide)

/-- C10: a coordinate numerically equal to 0 is treated as absent — the
service and the websocket `alert_trigger` path both store `none` for a 0
latitude or longitude, and a `location_update` message carrying a 0
coordinate is answered with the "Missing required location data" error, so
no location track is persisted. -/
theorem zero_coordinate_treated_as_absent (now : ℤ)
    (profile : UserProfile) (v : Option ℚ) (m : String) (st : UserState)
    (dist : ℚ → ℚ → ℚ → ℚ → ℚ) (zones : List SafeZone)
    (alerts : List (String × Alert)) (aid : Option String)
    (acc alt spd hdg : Option ℚ) :
    (AlertService.create_alert now profile (some 0) v
        m).1.initial_latitude = none ∧
    (AlertService.create_alert now profile v (some 0)
        m).1.initial_longitude = none ∧
    (∃ a, (AlertConsumer.create_alert st (some 0) v m).alerts =
      st.alerts ++ [a] ∧ a.initial_latitude = none) ∧
    (∃ a, (AlertConsumer.create_alert st v (some 0) m).alerts =
      st.alerts ++ [a] ∧ a.initial_longitude = none) ∧
    AlertConsumer.handle_location_update dist zones alerts aid (some 0) v
        acc alt spd hdg =
      .error "Missing required location data" ∧
    AlertConsumer.handle_location_update dist zones alerts aid v (some 0)
        acc alt spd hdg =
      .error "Missing required location data" := by
  refine ⟨rfl, rfl, ⟨_, rfl, rfl⟩, ⟨_, rfl, rfl⟩, ?_, ?_⟩
  · unfold AlertConsumer.handle_location_update
    simp [pyTruthy]
  · unfold AlertConsumer.handle_location_update
    simp [pyTruthy]
